import Mathlib

/-!
Shallow embedding of the MindFresh mood-driven recommendation aggregator
(src/src/pages/Recommendations.tsx, src/unnamed/part_000, src/unnamed/part_001).

Network calls are modelled by an oracle outcome passed to each adapter:
the adapter is a total function from the outcome of its provider call to
the effect it has on the component state (an optional wholesale list
replacement plus a count of failure toasts emitted).
-/

namespace MindFresh

/-- Track entity as declared in Recommendations.tsx (interface Track):
nested user object with a name, optional genre, numeric duration. -/
structure TrackUser where
  name : String
deriving DecidableEq

structure Track where
  id : String
  title : String
  user : TrackUser
  genre : Option String
  duration : Int
deriving DecidableEq

/-- YouTube video entity (interface YouTubeVideo): nested id.videoId and
snippet with title, channelTitle, description, thumbnails.medium.url. -/
structure VideoId where
  videoId : String
deriving DecidableEq

structure VideoThumbnailMedium where
  url : String
deriving DecidableEq

structure VideoThumbnails where
  medium : VideoThumbnailMedium
deriving DecidableEq

structure VideoSnippet where
  title : String
  channelTitle : String
  description : String
  thumbnails : VideoThumbnails
deriving DecidableEq

structure YouTubeVideo where
  id : VideoId
  snippet : VideoSnippet
deriving DecidableEq

/-- Book entity (interface Book): id plus volumeInfo with optional fields. -/
structure ImageLinks where
  thumbnail : String
deriving DecidableEq

structure VolumeInfo where
  title : String
  authors : Option (List String)
  description : Option String
  imageLinks : Option ImageLinks
  publishedDate : Option String
deriving DecidableEq

structure Book where
  id : String
  volumeInfo : VolumeInfo
deriving DecidableEq

/-- The three mood-derived query strings (getMoodBasedContent return shape). -/
structure QueryBundle where
  musicQuery : String
  podcastQuery : String
  bookQuery : String
deriving DecidableEq

/-- Bundle returned by getMoodBasedContent for mood <= 3. -/
def lowMoodBundle : QueryBundle :=
  { musicQuery := "relaxing meditation ambient"
    podcastQuery := "mental health therapy mindfulness"
    bookQuery := "self help depression anxiety" }

/-- Bundle returned by getMoodBasedContent for 3 < mood <= 6. -/
def midMoodBundle : QueryBundle :=
  { musicQuery := "chill peaceful calm"
    podcastQuery := "motivation wellness lifestyle"
    bookQuery := "psychology happiness mindfulness" }

/-- Bundle returned by getMoodBasedContent for mood > 6. -/
def highMoodBundle : QueryBundle :=
  { musicQuery := "uplifting energetic positive"
    podcastQuery := "success motivation inspiration"
    bookQuery := "personal development success happiness" }

/-- Mood classifier, translated from getMoodBasedContent in
Recommendations.tsx lines 62-82: if (mood <= 3) ... else if (mood <= 6)
... else ... -/
def getMoodBasedContent (mood : Int) : QueryBundle :=
  if mood ≤ 3 then lowMoodBundle
  else if mood ≤ 6 then midMoodBundle
  else highMoodBundle

/-- Outcome of a browser fetch call as observed by the adapter code path:
the fetch promise rejects (networkError, reaching the catch block), the
response arrives with response.ok false (httpError: the body is never
read and the if-block is skipped), the response is ok but response.json()
throws (malformedBody, reaching the catch block), or the body parses and
its list field (data.data for Audius, data.items for Books) is present or
absent. -/
inductive FetchOutcome (α : Type) where
  | networkError
  | httpError
  | malformedBody
  | okBody (items : Option (List α))

/-- Effect of one adapter call on the component state: an optional
wholesale replacement of that section's list (none means the setter was
never called, leaving the previous list in place) and the number of
failure toasts emitted by the call. -/
structure AdapterEffect (α : Type) where
  update : Option (List α)
  toasts : Nat
deriving DecidableEq

/-- Track filter from Recommendations.tsx line 112:
(data.data || []).filter((track) => track.duration > 30). -/
def fullTracks (l : List Track) : List Track :=
  l.filter (fun t => t.duration > 30)

/-- Page size for the track section: fullTracks.slice(0, 6) (line 113). -/
def audiusShownTracks (l : List Track) : List Track :=
  (fullTracks l).take 6

/-- Upstream page size in the Audius request URL (limit=20, line 106). -/
def audiusRequestLimit : Nat := 20

/-- Audius track adapter, translated from fetchAudiusTracks in
Recommendations.tsx lines 103-123. Inside try: fetch; if (response.ok)
parse, filter tracks with duration > 30, setTracks of the first 6. The
catch block logs and emits one destructive toast; it does not call
setTracks. A non-ok response falls through the if with no setter call
and no toast. -/
def fetchAudiusTracks : FetchOutcome Track → AdapterEffect Track
  | .networkError => ⟨none, 1⟩
  | .httpError => ⟨none, 0⟩
  | .malformedBody => ⟨none, 1⟩
  | .okBody d => ⟨some (audiusShownTracks (d.getD [])), 0⟩

/-- Page size in the Google Books request URL (maxResults=6, line 149). -/
def booksRequestMaxResults : Nat := 6

/-- Books adapter, translated from fetchBooks in Recommendations.tsx
lines 146-164. Inside try: fetch; if (response.ok) parse and
setBooks(data.items || []) with no client-side truncation. The catch
block emits one destructive toast and does not call setBooks; a non-ok
response falls through with no setter call and no toast. -/
def fetchBooks : FetchOutcome Book → AdapterEffect Book
  | .networkError => ⟨none, 1⟩
  | .httpError => ⟨none, 0⟩
  | .malformedBody => ⟨none, 1⟩
  | .okBody items => ⟨some (items.getD []), 0⟩

/-- Body returned by the youtube-search relay as seen by the client:
data.items may be present or absent. -/
structure YouTubeSearchData where
  items : Option (List YouTubeVideo)

/-- Outcome of supabase.functions.invoke as observed by fetchYouTubeVideos:
either the invoke call itself rejects (reaching the catch block), or it
resolves with a data/error pair. -/
inductive InvokeOutcome where
  | invokeThrew
  | result (data : Option YouTubeSearchData) (error : Option String)

/-- Page size requested from the upstream YouTube API by the relay
(maxResults=6 in src/unnamed/part_001). -/
def youtubeRelayMaxResults : Nat := 6

/-- YouTube adapter, translated from fetchYouTubeVideos in
Recommendations.tsx lines 125-144. Inside try: invoke the relay;
if (error) throw error (caught below, one destructive toast, no setter);
if (data && data.items) setVideos(data.items) with no client-side
truncation; otherwise no setter call and no toast. -/
def fetchYouTubeVideos : InvokeOutcome → AdapterEffect YouTubeVideo
  | .invokeThrew => ⟨none, 1⟩
  | .result _ (some _) => ⟨none, 1⟩
  | .result none none => ⟨none, 0⟩
  | .result (some d) none =>
      match d.items with
      | some items => ⟨some items, 0⟩
      | none => ⟨none, 0⟩

/-- Recommendation batch: the component state set by the orchestrator
(useState hooks in Recommendations.tsx lines 52-55). -/
structure RecommendationBatch where
  tracks : List Track
  videos : List YouTubeVideo
  books : List Book
  loading : Bool
deriving DecidableEq

/-- Initial component state: tracks, videos, books start as [] and
loading starts as true (lines 52-55). -/
def initialBatch : RecommendationBatch :=
  { tracks := [], videos := [], books := [], loading := true }

/-- setLoading(true) at the start of loadRecommendations (line 167). -/
def startRefresh (s : RecommendationBatch) : RecommendationBatch :=
  { s with loading := true }

/-- Apply the track adapter effect: setTracks replaces the list wholesale
when called, otherwise the previous list stays. -/
def applyTracks (s : RecommendationBatch) (e : AdapterEffect Track) :
    RecommendationBatch :=
  { s with tracks := e.update.getD s.tracks }

/-- Apply the video adapter effect to the batch. -/
def applyVideos (s : RecommendationBatch) (e : AdapterEffect YouTubeVideo) :
    RecommendationBatch :=
  { s with videos := e.update.getD s.videos }

/-- Apply the book adapter effect to the batch. -/
def applyBooks (s : RecommendationBatch) (e : AdapterEffect Book) :
    RecommendationBatch :=
  { s with books := e.update.getD s.books }

/-- Orchestrator, translated from loadRecommendations in
Recommendations.tsx lines 166-177: setLoading(true); compute the query
bundle from the current mood; Promise.all over the three adapter calls,
each invoked with its respective query (each adapter is total, so the
join always settles); setLoading(false). The provider outcomes are
supplied as oracles indexed by the query string sent upstream. -/
def loadRecommendations (mood : Int) (s : RecommendationBatch)
    (audiusOutcome : String → FetchOutcome Track)
    (ytOutcome : String → InvokeOutcome)
    (booksOutcome : String → FetchOutcome Book) : RecommendationBatch :=
  let content := getMoodBasedContent mood
  let s0 := startRefresh s
  let s1 := applyTracks s0 (fetchAudiusTracks (audiusOutcome content.musicQuery))
  let s2 := applyVideos s1 (fetchYouTubeVideos (ytOutcome content.podcastQuery))
  let s3 := applyBooks s2 (fetchBooks (booksOutcome content.bookQuery))
  { s3 with loading := false }

/-- Render condition for the "No music recommendations found" message
(line 260): tracks.length === 0 && !loading. -/
def showsNoMusicResults (s : RecommendationBatch) : Bool :=
  (s.tracks.length == 0) && !s.loading

/-- Mood fetch, translated from fetchUserMood in Recommendations.tsx
lines 84-101: if (!user) return (mood unchanged); query the mood store;
rows = none models an error or thrown exception (mood unchanged);
if the row list is non-empty, setCurrentMood(data[0].mood_value),
otherwise the mood is unchanged. -/
def fetchUserMood (user : Option String) (rows : Option (List Int))
    (currentMood : Int) : Int :=
  match user with
  | none => currentMood
  | some _ =>
      match rows with
      | some (v :: _) => v
      | _ => currentMood

/-- Initial mood state: useState(5) (line 51). -/
def initialMood : Int := 5

/-- Moods at which loadRecommendations fires during initial load,
translated from the two useEffect hooks (lines 209-217): the effect on
[currentMood] runs once on mount with the initial mood 5 and re-runs
only if fetchUserMood changes the mood; each run is guarded by
if (currentMood), i.e. the JS truthiness test mood != 0. -/
def initialRefreshMoods (user : Option String) (rows : Option (List Int)) :
    List Int :=
  let m0 := initialMood
  let m1 := fetchUserMood user rows m0
  (if m0 ≠ 0 then [m0] else []) ++ (if m1 ≠ m0 ∧ m1 ≠ 0 then [m1] else [])

/-- Events that mutate the playingTracks set in Recommendations.tsx:
the play/pause button (playTrack, lines 179-189), the audio element's
onPlay handler (line 289, adds the id) and onPause handler (lines
290-294, removes the id). -/
inductive PlaybackEvent where
  | toggle (id : String)
  | mediaPlay (id : String)
  | mediaPause (id : String)

/-- Toggle handler, translated from playTrack in Recommendations.tsx
lines 179-189: copy the set; if it has trackId, delete it, else add it. -/
def playTrack (prev : Finset String) (trackId : String) : Finset String :=
  if trackId ∈ prev then prev.erase trackId else insert trackId prev

/-- One step of the playingTracks state under a playback event. -/
def stepPlaying (s : Finset String) : PlaybackEvent → Finset String
  | .toggle id => playTrack s id
  | .mediaPlay id => insert id s
  | .mediaPause id => s.erase id

/-- Run a sequence of playback events from the initial empty set
(useState(new Set()), line 56). -/
def runPlaying (evs : List PlaybackEvent) : Finset String :=
  evs.foldl stepPlaying ∅

/-- Book detail selection: setSelectedBook(book) on card click
(line 340). The state holds at most one book by construction. -/
def selectBook (_s : Option Book) (b : Book) : Option Book :=
  some b

/-- Book detail close: setSelectedBook(null) on overlay click or the
close button (lines 375, 380). -/
def closeBookDetail (_s : Option Book) : Option Book :=
  none

/-- Initial selection state: useState<Book | null>(null) (line 57). -/
def initialSelectedBook : Option Book := none

end MindFresh

namespace PartZero

/-- Playback state of the earlier Recommendations page version in
src/unnamed/part_000 (lines 55-56): currentTrack : string | null and
isPlaying : boolean. -/
structure PlaybackSM where
  currentTrack : Option String
  isPlaying : Bool
deriving DecidableEq

/-- Initial playback state: useState(null), useState(false). -/
def initialPlayback : PlaybackSM := { currentTrack := none, isPlaying := false }

/-- Toggle handler, translated from playTrack in src/unnamed/part_000
lines 176-184: if (currentTrack === trackId && isPlaying) then
setIsPlaying(false); setCurrentTrack(null); else setCurrentTrack(trackId);
setIsPlaying(true). -/
def playTrack (s : PlaybackSM) (trackId : String) : PlaybackSM :=
  if s.currentTrack = some trackId ∧ s.isPlaying then
    { currentTrack := none, isPlaying := false }
  else
    { currentTrack := some trackId, isPlaying := true }

end PartZero

namespace MindFresh

/-! Theorems about the embedded program. -/

/-- Claim C1 counterexample: on a non-success HTTP status the Audius
adapter leaves the previous track list in place (the setter is never
called, so the update is none, not a replacement by the empty list) and
emits no failure notification. -/
theorem audius_http_error_silent_skip :
    (fetchAudiusTracks FetchOutcome.httpError).update ≠ some [] ∧
    (fetchAudiusTracks FetchOutcome.httpError).update = none ∧
    (fetchAudiusTracks FetchOutcome.httpError).toasts = 0 := by
  refine ⟨by simp [fetchAudiusTracks], rfl, rfl⟩

/-- Claim C1 amended: each adapter is a total function (never throws to
its caller) and emits at most one failure notification per call; a
caught error (network failure, malformed body, or a relay error) emits
exactly one notification and leaves the previous list unchanged; a
non-success HTTP status, a resolved relay call with no data, or a
payload without the expected items field leaves the list unchanged and
emits no notification; only a successful parse replaces the list, with
no notification. -/
theorem adapters_absorb_failures :
    fetchAudiusTracks FetchOutcome.networkError = ⟨none, 1⟩ ∧
    fetchAudiusTracks FetchOutcome.malformedBody = ⟨none, 1⟩ ∧
    fetchAudiusTracks FetchOutcome.httpError = ⟨none, 0⟩ ∧
    (∀ d, (fetchAudiusTracks (FetchOutcome.okBody d)).toasts = 0) ∧
    fetchBooks FetchOutcome.networkError = ⟨none, 1⟩ ∧
    fetchBooks FetchOutcome.malformedBody = ⟨none, 1⟩ ∧
    fetchBooks FetchOutcome.httpError = ⟨none, 0⟩ ∧
    (∀ items, (fetchBooks (FetchOutcome.okBody items)).toasts = 0) ∧
    fetchYouTubeVideos InvokeOutcome.invokeThrew = ⟨none, 1⟩ ∧
    (∀ d e, fetchYouTubeVideos (InvokeOutcome.result d (some e)) = ⟨none, 1⟩) ∧
    fetchYouTubeVideos (InvokeOutcome.result none none) = ⟨none, 0⟩ ∧
    fetchYouTubeVideos (InvokeOutcome.result (some { items := none }) none) = ⟨none, 0⟩ ∧
    (∀ o, (fetchAudiusTracks o).toasts ≤ 1) ∧
    (∀ o, (fetchBooks o).toasts ≤ 1) ∧
    (∀ o, (fetchYouTubeVideos o).toasts ≤ 1) := by
  refine ⟨rfl, rfl, rfl, fun d => rfl, rfl, rfl, rfl, fun items => rfl, rfl,
    fun d e => by cases d <;> rfl, rfl, rfl, ?_, ?_, ?_⟩
  · intro o; cases o <;> simp [fetchAudiusTracks]
  · intro o; cases o <;> simp [fetchBooks]
  · intro o
    match o with
    | .invokeThrew => simp [fetchYouTubeVideos]
    | .result _ (some _) => simp [fetchYouTubeVideos]
    | .result none none => simp [fetchYouTubeVideos]
    | .result (some ⟨some items⟩) none => simp [fetchYouTubeVideos]
    | .result (some ⟨none⟩) none => simp [fetchYouTubeVideos]

/-- Claim C2: every run of loadRecommendations completes (it is a total
function of the provider outcomes), sets loading to true as the refresh
starts, and the final state after all three adapter effects have been
applied has loading = false, regardless of the individual outcomes. -/
theorem loadRecommendations_clears_loading
    (mood : Int) (s : RecommendationBatch)
    (a : String → FetchOutcome Track) (y : String → InvokeOutcome)
    (b : String → FetchOutcome Book) :
    (startRefresh s).loading = true ∧
    (loadRecommendations mood s a y b).loading = false := by
  exact ⟨rfl, rfl⟩

/-- Claim C3: the track adapter keeps exactly the tracks with
duration > 30, preserves the provider's relative order (the filtered
list and the shown list are sublists of the provider list), and the
shown list after truncation has length at most 6. -/
theorem audius_filter_spec (l : List Track) :
    (∀ t, t ∈ fullTracks l ↔ (t ∈ l ∧ t.duration > 30)) ∧
    List.Sublist (fullTracks l) l ∧
    List.Sublist (audiusShownTracks l) (fullTracks l) ∧
    (audiusShownTracks l).length ≤ 6 := by
  refine ⟨?_, ?_, ?_, ?_⟩
  · intro t
    simp [fullTracks, List.mem_filter]
  · exact List.filter_sublist l
  · exact List.take_sublist 6 (fullTracks l)
  · simp [audiusShownTracks, List.length_take]

/-- Claim C4: for every integer mood in [1,10], getMoodBasedContent is
pure and total and returns exactly one of the three fixed bundles
according to the bands mood <= 3, 4 <= mood <= 6 and mood >= 7; in
particular getMoodBasedContent 2 is the low-mood bundle. -/
theorem getMoodBasedContent_bands (mood : Int) (h1 : 1 ≤ mood) (h2 : mood ≤ 10) :
    (mood ≤ 3 → getMoodBasedContent mood = lowMoodBundle) ∧
    (4 ≤ mood → mood ≤ 6 → getMoodBasedContent mood = midMoodBundle) ∧
    (7 ≤ mood → getMoodBasedContent mood = highMoodBundle) ∧
    getMoodBasedContent 2 = lowMoodBundle := by
  refine ⟨?_, ?_, ?_, by decide⟩
  · intro h3
    simp [getMoodBasedContent, h3]
  · intro h4 h6
    have h3 : ¬ mood ≤ 3 := by omega
    simp [getMoodBasedContent, h3, h6]
  · intro h7
    have h3 : ¬ mood ≤ 3 := by omega
    have h6 : ¬ mood ≤ 6 := by omega
    simp [getMoodBasedContent, h3, h6]

/-- Witness for claim C4 at mood = 2. -/
theorem getMoodBasedContent_bands_witness :
    getMoodBasedContent 2 = lowMoodBundle :=
  (getMoodBasedContent_bands 2 (by norm_num) (by norm_num)).1 (by norm_num)

/-- Claim C5 counterexample: from the initial empty playing set, the
event sequence toggle "A" then toggle "B" reaches a state in which two
tracks are in the playing set at once. -/
theorem two_tracks_playing_reachable :
    (runPlaying [PlaybackEvent.toggle "A", PlaybackEvent.toggle "B"]).card = 2 := by
  decide

/-- Claim C5 amended: a toggle-play intent on track i only toggles i's
own membership in the playing set and leaves every other track's state
unchanged; the code does not enforce a single playing track, and a state
with two tracks playing at once is reachable. -/
theorem playTrack_toggle_semantics :
    (∀ (s : Finset String) (i x : String),
        x ∈ playTrack s i ↔ ((x ∈ s ∧ x ≠ i) ∨ (x = i ∧ x ∉ s))) ∧
    (∃ evs, 2 ≤ (runPlaying evs).card) := by
  constructor
  · intro s i x
    by_cases hi : i ∈ s <;> by_cases hx : x = i <;>
      simp [playTrack, hi, hx, Finset.mem_erase, Finset.mem_insert]
  · exact ⟨[PlaybackEvent.toggle "A", PlaybackEvent.toggle "B"], by decide⟩

/-- Claim C6 counterexample: in the part_000 playback machine, toggling
track "A" twice from Idle returns the machine to Idle (currentTrack is
cleared), not to Paused("A"). -/
theorem toggle_twice_returns_idle :
    PartZero.playTrack (PartZero.playTrack PartZero.initialPlayback "A") "A" =
      PartZero.initialPlayback ∧
    PartZero.playTrack (PartZero.playTrack PartZero.initialPlayback "A") "A" ≠
      { currentTrack := some "A", isPlaying := false } := by
  decide

/-- Claim C6 amended: starting from Idle, toggling track a twice returns
the machine to Idle (the code clears the active track instead of pausing
it), never Paused(a); toggling track b while a is playing results in
Playing(b) with a no longer the active track; and toggling a while
Paused(a) resumes Playing(a). -/
theorem playTrack_sm_transitions (a b : String) (hab : a ≠ b) :
    PartZero.playTrack (PartZero.playTrack PartZero.initialPlayback a) a =
      PartZero.initialPlayback ∧
    PartZero.playTrack { currentTrack := some a, isPlaying := true } b =
      { currentTrack := some b, isPlaying := true } ∧
    PartZero.playTrack { currentTrack := some a, isPlaying := false } a =
      { currentTrack := some a, isPlaying := true } := by
  refine ⟨?_, ?_, ?_⟩
  · simp [PartZero.playTrack, PartZero.initialPlayback]
  · simp [PartZero.playTrack, hab]
  · simp [PartZero.playTrack]

/-- Witness for the amended claim C6 at tracks "A" and "B". -/
theorem playTrack_sm_transitions_witness :
    PartZero.playTrack { currentTrack := some "A", isPlaying := true } "B" =
      { currentTrack := some "B", isPlaying := true } :=
  (playTrack_sm_transitions "A" "B" (by decide)).2.1

/-- Claim C7: when the mood store yields no reading for the user, the
effective mood stays at the default 5, the query bundle resolves to the
4-6 band, and loadRecommendations fires exactly once on initial load,
at mood 5. -/
theorem default_mood_refresh_once (u : String) :
    fetchUserMood (some u) (some []) initialMood = 5 ∧
    initialRefreshMoods (some u) (some []) = [5] ∧
    getMoodBasedContent (fetchUserMood (some u) (some []) initialMood) =
      midMoodBundle := by
  refine ⟨rfl, ?_, by norm_num [fetchUserMood, initialMood, getMoodBasedContent]⟩
  simp [initialRefreshMoods, fetchUserMood, initialMood]

/-- Claim C8 counterexample: a provider response with 7 book items is
stored in full by the book adapter, so the books list can exceed 6
entries. -/
theorem books_no_client_cap :
    6 < ((fetchBooks (FetchOutcome.okBody
        (some (List.replicate 7
          { id := "b"
            volumeInfo := { title := "t", authors := none, description := none,
                            imageLinks := none, publishedDate := none } })))).update.getD
        []).length := by
  simp [fetchBooks]

/-- Claim C8 amended: the page size of 6 is requested upstream in the
books URL (maxResults=6) and in the relay's upstream YouTube request
(maxResults=6), but neither adapter truncates client-side: on a
successful response the stored list is exactly the provider's items
list, so it stays within 6 only if the provider honours the requested
page size. -/
theorem adapters_request_page_size_six :
    booksRequestMaxResults = 6 ∧ youtubeRelayMaxResults = 6 ∧
    (∀ items : List Book,
        (fetchBooks (FetchOutcome.okBody (some items))).update = some items) ∧
    (∀ items : List YouTubeVideo,
        (fetchYouTubeVideos
          (InvokeOutcome.result (some { items := some items }) none)).update =
          some items) := by
  exact ⟨rfl, rfl, fun items => rfl, fun items => rfl⟩

/-- Claim C9: selecting book x then book y from any selection state
yields exactly Open(y) (the single optional slot is replaced, never
stacked), closing from any state reached by a selection yields Closed,
and the initial state is Closed. -/
theorem book_selection_spec :
    (∀ (s : Option Book) (x y : Book), selectBook (selectBook s x) y = some y) ∧
    (∀ (s : Option Book) (y : Book), closeBookDetail (selectBook s y) = none) ∧
    initialSelectedBook = none :=
  ⟨fun _ _ _ => rfl, fun _ _ => rfl, rfl⟩

/-- Claim C10: at component initialisation the batch has loading = true
and empty tracks, videos and books lists, and the music section's
"no results" message is not shown (the state reads as still loading). -/
theorem initial_batch_loading :
    initialBatch.loading = true ∧ initialBatch.tracks = [] ∧
    initialBatch.videos = [] ∧ initialBatch.books = [] ∧
    showsNoMusicResults initialBatch = false :=
  ⟨rfl, rfl, rfl, rfl, rfl⟩

end MindFresh
